import Mathlib

/-!
Verification of the proxy-rotation and session-event-routing core of the
SheerID-Verification-Tool repository.  The JavaScript sources
(`proxy-manager.js` and the server file) are shallowly embedded below:
JS strings are Lean `String`s, JS `Set`/`Map` become lists maintained with
set/map semantics, `null`/`undefined` become `Option`, and thrown
exceptions become `Except`.
-/

/-! ## JavaScript string primitives -/

/-- JS `String.prototype.split` with a single-character separator: splits the
character list at every occurrence of the separator, keeping empty pieces. -/
def jsSplitAux (sep : Char) : List Char → List Char → List String
  | [], acc => [String.mk acc.reverse]
  | c :: rest, acc =>
    if c = sep then String.mk acc.reverse :: jsSplitAux sep rest []
    else jsSplitAux sep rest (c :: acc)

/-- JS `str.split(sep)` for a one-character separator. -/
def jsSplit (s : String) (sep : Char) : List String :=
  jsSplitAux sep s.data []

/-- JS `String.prototype.trim`: strip whitespace from both ends. -/
def jsTrim (s : String) : String :=
  String.mk (((s.data.dropWhile Char.isWhitespace).reverse.dropWhile Char.isWhitespace).reverse)

/-- Value of a list of decimal digits. -/
def digitsToNat (ds : List Char) : Nat :=
  ds.foldl (fun a c => a * 10 + (c.toNat - 48)) 0

/-- Hexadecimal digit test, as used by JS `parseInt` after a `0x` marker. -/
def isHexDigitChar (c : Char) : Bool :=
  c.isDigit || ('a' ≤ c && c ≤ 'f') || ('A' ≤ c && c ≤ 'F')

/-- Value of a single hexadecimal digit. -/
def hexDigitToNat (c : Char) : Nat :=
  if c.isDigit then c.toNat - 48
  else if 'a' ≤ c then c.toNat - 87
  else c.toNat - 55

/-- Value of a list of hexadecimal digits. -/
def hexToNat (ds : List Char) : Nat :=
  ds.foldl (fun a c => a * 16 + hexDigitToNat c) 0

/-- JS `parseInt(str)` with no radix argument: skip leading whitespace, read an
optional sign, then either a `0x`/`0X` marker followed by the longest run of
hex digits, or the longest run of decimal digits; `none` models `NaN` (no
digits could be read).  Trailing non-digit characters are ignored. -/
def jsParseInt (s : String) : Option Int :=
  let cs := s.data.dropWhile Char.isWhitespace
  let signed : Bool × List Char :=
    match cs with
    | '-' :: r => (true, r)
    | '+' :: r => (false, r)
    | _ => (false, cs)
  let core : Option Nat :=
    match signed.2 with
    | '0' :: 'x' :: r =>
      let hs := r.takeWhile isHexDigitChar
      if hs.isEmpty then none else some (hexToNat hs)
    | '0' :: 'X' :: r =>
      let hs := r.takeWhile isHexDigitChar
      if hs.isEmpty then none else some (hexToNat hs)
    | other =>
      let ds := other.takeWhile Char.isDigit
      if ds.isEmpty then none else some (digitsToNat ds)
  core.map fun n => if signed.1 then -(n : Int) else (n : Int)

/-- JS `Array.prototype.join(sep)`. -/
def jsJoin (sep : String) : List String → String
  | [] => ""
  | [x] => x
  | x :: y :: rest => x ++ sep ++ jsJoin sep (y :: rest)

/-! ## Proxy descriptor and parser (`parseProxy`) -/

/-- Result of `parseProxy`: `host`, `port`, optional `username` and `password`,
and `raw`, the original configuration line used as the identity key. -/
structure ProxyDescriptor where
  host : String
  port : Int
  username : Option String
  password : Option String
  raw : String
deriving Repr, DecidableEq

/-- `ProxyManager.parseProxy`: split the trimmed line on `:`; fewer than two
fields, a `NaN` port or an empty host give `null`; field 3 is the username and
fields 4.. are rejoined with `:` as the password. -/
def parseProxy (proxyStr : String) : Option ProxyDescriptor :=
  let parts := jsSplit (jsTrim proxyStr) ':'
  if parts.length < 2 then none else
  let host := parts[0]?.getD ""
  match jsParseInt (parts[1]?.getD "") with
  | none => none
  | some port =>
    if host = "" then none else
    some { host := host, port := port
         , username := if parts.length > 2 then some (parts[2]?.getD "") else none
         , password := if parts.length > 3 then some (jsJoin ":" (parts.drop 3)) else none
         , raw := proxyStr }

/-! ## Proxy pool state (`ProxyManager`) -/

/-- Per-key cumulative statistics, the values of `proxyStats`. -/
structure ProxyStats where
  success : Nat
  fail : Nat
deriving Repr, DecidableEq

/-- JS `Set` membership test (`Set.prototype.has`). -/
def setHas (s : List String) (k : String) : Bool :=
  s.contains k

/-- JS `Set.prototype.add`: append the key if it is not already present. -/
def setAdd (s : List String) (k : String) : List String :=
  if s.contains k then s else s ++ [k]

/-- JS `Set.prototype.delete`: remove the key. -/
def setDelete (s : List String) (k : String) : List String :=
  s.filter fun x => !(x == k)

/-- JS `Map.prototype.get` as an association list lookup. -/
def mapGet : List (String × ProxyStats) → String → Option ProxyStats
  | [], _ => none
  | (k₀, v₀) :: rest, k => if k₀ = k then some v₀ else mapGet rest k

/-- JS `Map.prototype.set`: overwrite in place if the key is present,
otherwise append at the end. -/
def mapSet : List (String × ProxyStats) → String → ProxyStats → List (String × ProxyStats)
  | [], k, v => [(k, v)]
  | (k₀, v₀) :: rest, k, v =>
    if k₀ = k then (k, v) :: rest else (k₀, v₀) :: mapSet rest k v

/-- The mutable state of a `ProxyManager` instance: the loaded descriptor
sequence, the rotation cursor, the failed-key set and the per-key stats map. -/
structure ProxyManager where
  proxies : List ProxyDescriptor
  currentIndex : Nat
  failedProxies : List String
  proxyStats : List (String × ProxyStats)
deriving Repr, DecidableEq

/-- The freshly constructed manager (`new ProxyManager()`). -/
def ProxyManager.init : ProxyManager :=
  { proxies := [], currentIndex := 0, failedProxies := [], proxyStats := [] }

/-- `loadFromString`: reset pool, cursor and failed set; split on newlines,
trim, drop blank and `#` lines, parse the remainder and keep the successes.
Returns the new state and the accepted count. -/
def ProxyManager.loadFromString (pm : ProxyManager) (proxyListStr : String) :
    ProxyManager × Nat :=
  let lines := ((jsSplit proxyListStr '\n').map jsTrim).filter
    fun l => l.length > 0 && !(l.startsWith "#")
  let proxies := lines.filterMap parseProxy
  ({ pm with proxies := proxies, currentIndex := 0, failedProxies := [] },
   proxies.length)

/-- `loadFromArray`: reset pool, cursor and failed set; parse each entry of the
array and keep the successes.  Returns the new state and the accepted count. -/
def ProxyManager.loadFromArray (pm : ProxyManager) (proxyArray : List String) :
    ProxyManager × Nat :=
  let proxies := proxyArray.filterMap parseProxy
  ({ pm with proxies := proxies, currentIndex := 0, failedProxies := [] },
   proxies.length)

/-- `getNext`: round-robin over the non-failed subsequence; on an empty pool
return `null`; when every descriptor is failed, clear the failed set and
return the first descriptor (the cursor is only incremented on the normal
path). -/
def ProxyManager.getNext (pm : ProxyManager) :
    Option ProxyDescriptor × ProxyManager :=
  if pm.proxies.length = 0 then (none, pm)
  else
    let availableProxies := pm.proxies.filter fun p => !(setHas pm.failedProxies p.raw)
    if availableProxies.length = 0 then
      (pm.proxies[0]?, { pm with failedProxies := [] })
    else
      (availableProxies[pm.currentIndex % availableProxies.length]?,
       { pm with currentIndex := pm.currentIndex + 1 })

/-- `getRandom`: uniform choice among non-failed descriptors; when every
descriptor is failed, clear the failed set and choose uniformly over the full
pool.  The random draw `r` stands for `Math.floor(Math.random() * len)`. -/
def ProxyManager.getRandom (pm : ProxyManager) (r : Nat) :
    Option ProxyDescriptor × ProxyManager :=
  let available := pm.proxies.filter fun p => !(setHas pm.failedProxies p.raw)
  if available.length = 0 then
    (pm.proxies[r % pm.proxies.length]?, { pm with failedProxies := [] })
  else
    (available[r % available.length]?, pm)

/-- `markFailed`: on a truthy argument, add the key to the failed set and
increment its fail counter (creating a `{success: 0, fail: 0}` record first
when the key is absent from the stats map). -/
def ProxyManager.markFailed (pm : ProxyManager) (proxy : Option ProxyDescriptor) :
    ProxyManager :=
  match proxy with
  | none => pm
  | some p =>
    let stats := (mapGet pm.proxyStats p.raw).getD { success := 0, fail := 0 }
    { pm with
      failedProxies := setAdd pm.failedProxies p.raw
      proxyStats := mapSet pm.proxyStats p.raw { stats with fail := stats.fail + 1 } }

/-- `markSuccess`: on a truthy argument, delete the key from the failed set and
increment its success counter. -/
def ProxyManager.markSuccess (pm : ProxyManager) (proxy : Option ProxyDescriptor) :
    ProxyManager :=
  match proxy with
  | none => pm
  | some p =>
    let stats := (mapGet pm.proxyStats p.raw).getD { success := 0, fail := 0 }
    { pm with
      failedProxies := setDelete pm.failedProxies p.raw
      proxyStats := mapSet pm.proxyStats p.raw { stats with success := stats.success + 1 } }

/-- The `count` getter. -/
def ProxyManager.count (pm : ProxyManager) : Nat :=
  pm.proxies.length

/-- The `availableCount` getter: loaded descriptors whose key is not failed. -/
def ProxyManager.availableCount (pm : ProxyManager) : Nat :=
  (pm.proxies.filter fun p => !(setHas pm.failedProxies p.raw)).length

/-- Iterate `getNext`, collecting the returned descriptors in call order. -/
def ProxyManager.getNextN : ProxyManager → Nat → List (Option ProxyDescriptor) × ProxyManager
  | pm, 0 => ([], pm)
  | pm, k + 1 =>
    let step := pm.getNext
    let rest := ProxyManager.getNextN step.2 k
    (step.1 :: rest.1, rest.2)

/-! ## Session event router (`/api/logs` SSE subscriber) -/

/-- One published log event, as assembled by `emitLogWithSession`:
`{time, message, type, sessionId}`, with `sessionId = none` for `null`. -/
structure LogData where
  time : String
  message : String
  type : String
  sessionId : Option String
deriving Repr, DecidableEq

/-- The filter inside `sendLog` for a subscriber whose query-string session id
is `subscriberSid` (`none` models an absent `sessionId` query parameter):
the event is written iff `sessionId && data.sessionId === sessionId`.
An absent or empty subscriber id is falsy; `===` is strict equality, so a
`null` event id never equals a string id. -/
def sendLogDelivers (subscriberSid : Option String) (data : LogData) : Bool :=
  match subscriberSid with
  | none => false
  | some s => !(s == "") && data.sessionId == some s

/-! ## Health probe (`testProxy`) -/

/-- The `data` object of an axios response to the probe URL; `origin` is
absent (`none`) when the JSON has no such field. -/
structure AxiosData where
  origin : Option String
deriving Repr, DecidableEq

/-- An axios response whose `data` may itself be absent. -/
structure AxiosResponse where
  data : Option AxiosData
deriving Repr, DecidableEq

/-- `response.data?.origin || 'unknown'`: optional chaining then the JS `||`
default, which also replaces an empty string. -/
def originOrUnknown (r : AxiosResponse) : String :=
  match r.data.bind AxiosData.origin with
  | none => "unknown"
  | some o => if o = "" then "unknown" else o

/-- The value `testProxy` resolves with: `{working, ip?, error?, proxy}`. -/
structure TestResult where
  working : Bool
  ip : Option String
  error : Option String
  proxy : String
deriving Repr, DecidableEq

/-- Evaluating the template literal `` `${proxy.host}:${proxy.port}` ``: on a
`null` proxy the property access throws a `TypeError`, modelled as
`Except.error`. -/
def proxyLabel : Option ProxyDescriptor → Except String String
  | none => Except.error "TypeError: Cannot read properties of null"
  | some p => Except.ok (p.host ++ ":" ++ toString p.port)

/-- `testProxy`, with the network interaction abstracted into `outcome`
(`Except.ok` a response, `Except.error` a thrown message for timeout,
connection refused or non-2xx).  On a response the success object is built in
the `try` block; on a throw the failure object is built in the `catch` block.
Building either object evaluates the proxy label, so with a `null` proxy the
`TypeError` raised inside the `catch` block propagates to the caller
(`Except.error`). -/
def ProxyManager.testProxy (proxy : Option ProxyDescriptor)
    (outcome : Except String AxiosResponse) : Except String TestResult :=
  match outcome with
  | Except.ok response =>
    (proxyLabel proxy).map fun lbl =>
      { working := true, ip := some (originOrUnknown response), error := none, proxy := lbl }
  | Except.error err =>
    (proxyLabel proxy).map fun lbl =>
      { working := false, ip := none, error := some err, proxy := lbl }

/-! ## Spec-side predicate for the parser rejection claim -/

/-- Numeric field in the plain sense of the spec sentence: an optionally
signed, nonempty run of decimal digits and nothing else. -/
def specNumericField (s : String) : Bool :=
  let cs :=
    match s.data with
    | '-' :: r => r
    | '+' :: r => r
    | cs => cs
  !cs.isEmpty && cs.all Char.isDigit

/-- The rejection condition exactly as the spec words it: fewer than two
colon-separated fields, or a non-numeric second field, or an empty host. -/
def specParseRejects (line : String) : Bool :=
  let parts := jsSplit (jsTrim line) ':'
  parts.length < 2 || !(specNumericField (parts[1]?.getD "")) || (parts[0]?.getD "") == ""

/-! ## Helper lemmas -/

theorem length_filter_not_add_countP {α : Type} (q : α → Bool) (l : List α) :
    (l.filter fun a => !(q a)).length + l.countP q = l.length := by
  induction l with
  | nil => simp
  | cons a l ih =>
    by_cases h : q a = true <;>
      simp [List.filter_cons, List.countP_cons, h] <;> omega

theorem filter_setHas_nil (l : List ProxyDescriptor) :
    (l.filter fun p => !(setHas ([] : List String) p.raw)) = l := by
  simp [setHas]

theorem setAdd_idem (s : List String) (k : String) :
    setAdd (setAdd s k) k = setAdd s k := by
  by_cases h : k ∈ s
  · simp [setAdd, h]
  · simp [setAdd, h]

theorem setDelete_idem (s : List String) (k : String) :
    setDelete (setDelete s k) k = setDelete s k := by
  simp [setDelete, List.filter_filter]

theorem mapGet_mapSet_self (m : List (String × ProxyStats)) (k : String) (v : ProxyStats) :
    mapGet (mapSet m k v) k = some v := by
  induction m with
  | nil => simp [mapGet, mapSet]
  | cons kv rest ih =>
    obtain ⟨k₀, v₀⟩ := kv
    by_cases h : k₀ = k
    · simp [mapGet, mapSet, h]
    · simp [mapGet, mapSet, h, ih]

theorem getNextN_fresh (l : List ProxyDescriptor) (st : List (String × ProxyStats)) :
    ∀ (k c : Nat), c + k ≤ l.length →
      (ProxyManager.getNextN ⟨l, c, [], st⟩ k).1 = ((l.drop c).take k).map some := by
  intro k
  induction k with
  | zero =>
    intro c h
    simp [ProxyManager.getNextN]
  | succ k ih =>
    intro c h
    have hc : c < l.length := by omega
    have hlen : ¬ l.length = 0 := by omega
    have hstep : ProxyManager.getNext ⟨l, c, [], st⟩
        = (some (l.get ⟨c, hc⟩), ⟨l, c + 1, [], st⟩) := by
      simp only [ProxyManager.getNext, filter_setHas_nil]
      rw [if_neg hlen, if_neg hlen]
      rw [Nat.mod_eq_of_lt hc, List.getElem?_eq_getElem hc]
      rfl
    simp only [ProxyManager.getNextN, hstep]
    rw [ih (c + 1) (by omega)]
    rw [List.drop_eq_getElem_cons hc, List.take_succ_cons, List.map_cons]
    simp [List.get_eq_getElem]

/-- Claim C1: a session-scoped subscriber (non-empty session id) receives a
published event iff the event's session id equals the subscriber's exactly;
events with a null session id are never delivered to it. -/
theorem claim1_session_filter (s : String) (h : s ≠ "") (d : LogData) :
    (sendLogDelivers (some s) d = true ↔ d.sessionId = some s) ∧
    (d.sessionId = none → sendLogDelivers (some s) d = false) := by
  constructor
  · simp [sendLogDelivers, h]
  · intro hnone
    simp [sendLogDelivers, hnone]

theorem claim1_session_filter_witness :
    ("S1" : String) ≠ "" ∧
    ((sendLogDelivers (some "S1")
        { time := "t", message := "m", type := "info", sessionId := some "S1" } = true ↔
      (some "S1" : Option String) = some "S1") ∧
     ((some "S1" : Option String) = none →
      sendLogDelivers (some "S1")
        { time := "t", message := "m", type := "info", sessionId := some "S1" } = false)) :=
  ⟨by decide, claim1_session_filter "S1" (by decide)
    { time := "t", message := "m", type := "info", sessionId := some "S1" }⟩

/-- Claim C2 as stated is false: with a duplicated key, or after `markFailed`
with an unloaded key, `availableCount + |failedKeys|` differs from the total
count.  Here the pool is loaded with the same line twice and that descriptor
is marked failed: availableCount is 0 and the failed set has one key, but the
total count is 2. -/
theorem claim2_counterexample :
    ((ProxyManager.init.loadFromArray ["a:1", "a:1"]).1.markFailed (parseProxy "a:1")).availableCount
      + ((ProxyManager.init.loadFromArray ["a:1", "a:1"]).1.markFailed (parseProxy "a:1")).failedProxies.length
      ≠ ((ProxyManager.init.loadFromArray ["a:1", "a:1"]).1.markFailed (parseProxy "a:1")).count := by
  decide

/-- Claim C2 amended: in every pool state, `availableCount` plus the number of
loaded descriptor occurrences whose key is in the failed set equals the total
count (the failed-set size itself can over- or under-count because duplicates
are permitted and failed keys need not be loaded). -/
theorem claim2_amended (pm : ProxyManager) :
    pm.availableCount + (pm.proxies.countP fun p => setHas pm.failedProxies p.raw)
      = pm.count :=
  length_filter_not_add_countP _ pm.proxies

/-- Claim C10: reloading via `loadFromString` or `loadFromArray` resets the
descriptor sequence, the cursor and the failed set but leaves the accumulated
per-key statistics map untouched. -/
theorem claim10_reload_preserves_stats (pm : ProxyManager) (s : String) (arr : List String) :
    (pm.loadFromString s).1.proxyStats = pm.proxyStats ∧
    (pm.loadFromString s).1.currentIndex = 0 ∧
    (pm.loadFromString s).1.failedProxies = [] ∧
    (pm.loadFromArray arr).1.proxyStats = pm.proxyStats ∧
    (pm.loadFromArray arr).1.currentIndex = 0 ∧
    (pm.loadFromArray arr).1.failedProxies = [] :=
  ⟨rfl, rfl, rfl, rfl, rfl, rfl⟩

/-- Claim C4: from a freshly loaded pool (cursor 0, empty failed set, any
statistics), `proxies.length` successive `getNext` calls return every loaded
descriptor exactly once, in load order. -/
theorem claim4_round_robin (l : List ProxyDescriptor) (st : List (String × ProxyStats)) :
    (ProxyManager.getNextN ⟨l, 0, [], st⟩ l.length).1 = l.map some := by
  have h := getNextN_fresh l st l.length 0 (by omega)
  simpa using h

/-- Claim C9 as stated is false: `testProxy` does throw for the `null` proxy
argument — building the proxy label dereferences the argument inside both the
`try` and the `catch` block, so the `TypeError` escapes the boundary. -/
theorem claim9_counterexample :
    ProxyManager.testProxy none
        (Except.ok { data := some { origin := some "1.2.3.4" } })
      = Except.error "TypeError: Cannot read properties of null" := rfl

/-- Claim C9 amended: for every non-null proxy argument, `testProxy` never
throws: a probe response yields `{working := true, ip, proxy}` and any thrown
probe failure yields `{working := false, error, proxy}`, leaving the
`markSuccess`/`markFailed` decision to the caller. -/
theorem claim9_amended (p : ProxyDescriptor) :
    (∀ response : AxiosResponse,
      ProxyManager.testProxy (some p) (Except.ok response)
        = Except.ok { working := true, ip := some (originOrUnknown response),
                      error := none, proxy := p.host ++ ":" ++ toString p.port }) ∧
    (∀ msg : String,
      ProxyManager.testProxy (some p) (Except.error msg)
        = Except.ok { working := false, ip := none, error := some msg,
                      proxy := p.host ++ ":" ++ toString p.port }) :=
  ⟨fun _ => rfl, fun _ => rfl⟩

/-- Claim C3 as stated is false: on the exhausted pool the `getNext` call
clears the failed set and returns the first descriptor, but the rotation
cursor stays at 5 instead of advancing to 6 — `currentIndex++` is only on the
non-exhausted path. -/
theorem claim3_counterexample :
    ProxyManager.getNext
        { proxies := [{ host := "a", port := 1, username := none, password := none, raw := "a:1" }],
          currentIndex := 5, failedProxies := ["a:1"], proxyStats := [] }
      = (some { host := "a", port := 1, username := none, password := none, raw := "a:1" },
         { proxies := [{ host := "a", port := 1, username := none, password := none, raw := "a:1" }],
           currentIndex := 5, failedProxies := [], proxyStats := [] })
    ∧ (5 : Nat) ≠ 5 + 1 := by
  exact ⟨rfl, by decide⟩

/-- Claim C3 amended: if the pool is non-empty and every loaded descriptor's
key is failed, a single `getNext` call clears the failed set and returns the
first loaded descriptor, leaving the cursor (and everything else) unchanged;
the cursor advances only on calls that found the pool non-exhausted. -/
theorem claim3_amnesty (pm : ProxyManager) (h₁ : pm.proxies ≠ [])
    (h₂ : ∀ p ∈ pm.proxies, setHas pm.failedProxies p.raw) :
    pm.getNext = (pm.proxies[0]?, { pm with failedProxies := [] }) := by
  have hlen : ¬ pm.proxies.length = 0 := by
    have := List.length_pos.mpr h₁
    omega
  have hfil : (pm.proxies.filter fun p => !(setHas pm.failedProxies p.raw)) = [] := by
    rw [List.filter_eq_nil_iff]
    intro p hp
    simp [h₂ p hp]
  simp only [ProxyManager.getNext, hfil]
  rw [if_neg hlen]
  rfl

theorem claim3_amnesty_witness :
    ({ proxies := [{ host := "a", port := 1, username := none, password := none, raw := "a:1" }],
       currentIndex := 5, failedProxies := ["a:1"], proxyStats := [] } : ProxyManager).proxies ≠ [] ∧
    ProxyManager.getNext
        { proxies := [{ host := "a", port := 1, username := none, password := none, raw := "a:1" }],
          currentIndex := 5, failedProxies := ["a:1"], proxyStats := [] }
      = (({ proxies := [{ host := "a", port := 1, username := none, password := none, raw := "a:1" }],
            currentIndex := 5, failedProxies := ["a:1"], proxyStats := [] } : ProxyManager).proxies[0]?,
         { proxies := [{ host := "a", port := 1, username := none, password := none, raw := "a:1" }],
           currentIndex := 5, failedProxies := [], proxyStats := [] }) :=
  ⟨by decide, claim3_amnesty _ (by decide) (by decide)⟩

/-- Claim C5 as stated is false: the failed-set part of `markFailed` is
idempotent but the statistics are not — a second call increments the fail
counter again, so the two states differ. -/
theorem claim5_counterexample :
    ProxyManager.markFailed
        (ProxyManager.markFailed ProxyManager.init (parseProxy "a:1")) (parseProxy "a:1")
      ≠ ProxyManager.markFailed ProxyManager.init (parseProxy "a:1") := by
  decide

/-- Claim C5 amended: `markFailed` and `markSuccess` are idempotent on the
failed set (a repeated call leaves it unchanged), but each call increments the
per-key fail (resp. success) counter by one, so the statistics are not
idempotent. -/
theorem claim5_marks (pm : ProxyManager) (d : ProxyDescriptor) :
    ((pm.markFailed (some d)).markFailed (some d)).failedProxies
      = (pm.markFailed (some d)).failedProxies ∧
    ((pm.markSuccess (some d)).markSuccess (some d)).failedProxies
      = (pm.markSuccess (some d)).failedProxies ∧
    (mapGet (pm.markFailed (some d)).proxyStats d.raw).getD { success := 0, fail := 0 }
      = { (mapGet pm.proxyStats d.raw).getD { success := 0, fail := 0 } with
          fail := ((mapGet pm.proxyStats d.raw).getD { success := 0, fail := 0 }).fail + 1 } ∧
    (mapGet (pm.markSuccess (some d)).proxyStats d.raw).getD { success := 0, fail := 0 }
      = { (mapGet pm.proxyStats d.raw).getD { success := 0, fail := 0 } with
          success := ((mapGet pm.proxyStats d.raw).getD { success := 0, fail := 0 }).success + 1 } := by
  refine ⟨?_, ?_, ?_, ?_⟩
  · simp [ProxyManager.markFailed, setAdd_idem]
  · simp [ProxyManager.markSuccess, setDelete_idem]
  · simp [ProxyManager.markFailed, mapGet_mapSet_self]
  · simp [ProxyManager.markSuccess, mapGet_mapSet_self]

/-- Claim C6 as stated is false: `"h:12abc"` has a non-numeric port field,
yet `parseInt` reads the digit prefix and the parser accepts the line, so
"non-numeric port implies None" fails. -/
theorem claim6_counterexample :
    ¬ (parseProxy "h:12abc" = none ↔ specParseRejects "h:12abc" = true) := by
  decide

/-- Claim C6 amended: the parser returns `none` exactly when the trimmed line
has fewer than two colon-separated fields, or its first field is empty, or
`parseInt` on its second field yields `NaN` (no leading digits after optional
sign); a port field with a numeric prefix followed by junk is accepted. -/
theorem claim6_parse_rejects (line : String) :
    parseProxy line = none ↔
      ((jsSplit (jsTrim line) ':').length < 2 ∨
       (jsSplit (jsTrim line) ':')[0]?.getD "" = "" ∨
       jsParseInt ((jsSplit (jsTrim line) ':')[1]?.getD "") = none) := by
  simp only [parseProxy]
  by_cases h1 : (jsSplit (jsTrim line) ':').length < 2
  · simp [h1]
  · rw [if_neg h1]
    cases hp : jsParseInt ((jsSplit (jsTrim line) ':')[1]?.getD "") with
    | none => simp [h1, hp]
    | some port =>
      by_cases h2 : (jsSplit (jsTrim line) ':')[0]?.getD "" = ""
      · simp [h1, h2, hp]
      · simp [h1, h2, hp]

/-- Claim C7 as stated is false: the parser performs no range check, so
`"h:70000"` yields a descriptor whose port 70000 is outside 1..65535. -/
theorem claim7_counterexample :
    parseProxy "h:70000"
      = some { host := "h", port := 70000, username := none, password := none, raw := "h:70000" }
    ∧ ¬ ((70000 : Int) ≤ 65535) := by
  exact ⟨by decide, by decide⟩

/-- Claim C7 amended: the port of a produced descriptor is exactly what
`parseInt` read from the second field — no 1..65535 range check is applied,
so out-of-range, zero and negative ports all pass through. -/
theorem claim7_port_unchecked (line : String) (d : ProxyDescriptor)
    (h : parseProxy line = some d) :
    jsParseInt ((jsSplit (jsTrim line) ':')[1]?.getD "") = some d.port := by
  simp only [parseProxy] at h
  split at h
  · exact absurd h (by simp)
  · split at h
    next hp => exact absurd h (by simp)
    next port hp =>
      split at h
      · exact absurd h (by simp)
      · injection h with h'
        rw [hp, ← h']

theorem claim7_port_unchecked_witness :
    parseProxy "h:70000"
      = some { host := "h", port := 70000, username := none, password := none, raw := "h:70000" }
    ∧ jsParseInt ((jsSplit (jsTrim "h:70000") ':')[1]?.getD "")
      = some ({ host := "h", port := 70000, username := none, password := none,
                raw := "h:70000" } : ProxyDescriptor).port :=
  ⟨by decide,
   claim7_port_unchecked "h:70000"
     { host := "h", port := 70000, username := none, password := none, raw := "h:70000" }
     (by decide)⟩

/-- Claim C8: on an accepted line with at least four colon-separated fields,
the username is the third field and the password is fields four onward
rejoined with colons, so embedded colons in passwords survive. -/
theorem claim8_password_rejoin (line : String) (d : ProxyDescriptor)
    (h : parseProxy line = some d)
    (h4 : 4 ≤ (jsSplit (jsTrim line) ':').length) :
    d.username = some ((jsSplit (jsTrim line) ':')[2]?.getD "") ∧
    d.password = some (jsJoin ":" ((jsSplit (jsTrim line) ':').drop 3)) := by
  simp only [parseProxy] at h
  split at h
  · exact absurd h (by simp)
  · split at h
    next hp => exact absurd h (by simp)
    next port hp =>
      split at h
      · exact absurd h (by simp)
      · injection h with h'
        have hu : (jsSplit (jsTrim line) ':').length > 2 := by omega
        have hpw : (jsSplit (jsTrim line) ':').length > 3 := by omega
        rw [← h']
        simp [hu, hpw]

theorem claim8_password_rejoin_witness :
    parseProxy "proxy.example.com:8080:alice:p@ss:word"
      = some { host := "proxy.example.com", port := 8080, username := some "alice",
               password := some "p@ss:word", raw := "proxy.example.com:8080:alice:p@ss:word" }
    ∧ 4 ≤ (jsSplit (jsTrim "proxy.example.com:8080:alice:p@ss:word") ':').length
    ∧ (({ host := "proxy.example.com", port := 8080, username := some "alice",
          password := some "p@ss:word",
          raw := "proxy.example.com:8080:alice:p@ss:word" } : ProxyDescriptor).username
        = some ((jsSplit (jsTrim "proxy.example.com:8080:alice:p@ss:word") ':')[2]?.getD "")
      ∧ ({ host := "proxy.example.com", port := 8080, username := some "alice",
           password := some "p@ss:word",
           raw := "proxy.example.com:8080:alice:p@ss:word" } : ProxyDescriptor).password
        = some (jsJoin ":" ((jsSplit (jsTrim "proxy.example.com:8080:alice:p@ss:word") ':').drop 3))) :=
  ⟨by decide, by decide,
   claim8_password_rejoin "proxy.example.com:8080:alice:p@ss:word"
     { host := "proxy.example.com", port := 8080, username := some "alice",
       password := some "p@ss:word", raw := "proxy.example.com:8080:alice:p@ss:word" }
     (by decide) (by decide)⟩
